import Mathlib

/-!
# Verification of the HTTP desync scanner core (`scripts/smuggler.py`)

Shallow embedding of the pure logic of the scanner:

* probe outcomes and timing statistics (`test_payload` results, `establish_baseline`),
* the differential classifier (`test_clte_vulnerability` / `test_tecl_vulnerability`),
* the payload builders (`build_clte_exploit`, `build_tecl_exploit`),
* the per-target orchestration of `scan_target`, including URL normalization
  (modelling the relevant path of CPython `urllib.parse.urlparse`, 3.11+ semantics).

Latencies are modelled as rationals.  Network I/O is abstracted as lists of
per-attempt outcomes (one list entry per call of `test_payload`), which is the
only information the classifier and baseline code inspect.  The evidence
strings (`details`) built by the classifier are presentational and carry no
decision logic, so they are omitted from the embedding.
-/

namespace Smuggler

/-! ## Probe outcomes and baseline statistics -/

/-- Result of one `test_payload` attempt (smuggler.py lines 88-115):
`("OK", elapsed, status_line, len)`, `("TIMEOUT", elapsed)`, `("REFUSED", ...)`
or `("ERROR", msg, ...)`. -/
inductive Outcome where
  | OK (elapsed : ℚ) (statusLine : String) (byteLen : Nat)
  | TIMEOUT (elapsed : ℚ)
  | REFUSED
  | ERROR (msg : String)
  deriving DecidableEq, Repr

/-- `statistics.mean`: arithmetic mean.  (Python raises on an empty list; the
sources only call it on nonempty lists, and the embedding returns 0 there.) -/
def listMean (l : List ℚ) : ℚ := l.sum / (l.length : ℚ)

/-- `statistics.stdev` squared, the sample variance:
`Σ (x - mean)² / (n - 1)` (0 when `n ≤ 1`, matching the code's
`stdev ... if len(timings) > 1 else 0` guard at line 210). -/
def sampleVariance (l : List ℚ) : ℚ :=
  (l.map (fun x => (x - listMean l) ^ 2)).sum / ((l.length : ℚ) - 1)

/-- `statistics.stdev l = s`: the standard deviation the source computes is the
nonnegative square root of the sample variance.  Since that square root is
irrational for general rational samples, the embedding characterizes it
relationally instead of computing it. -/
def IsSampleStdev (l : List ℚ) (s : ℚ) : Prop := 0 ≤ s ∧ s ^ 2 = sampleVariance l

/-- The baseline record returned by `establish_baseline` (line 214):
`{"mean": mean, "stdev": stdev, "timings": timings}`. -/
structure Baseline where
  mean : ℚ
  stdev : ℚ
  timings : List ℚ
  deriving DecidableEq, Repr

/-- The elapsed times of the `"OK"` outcomes of a list of attempts, in order
(the `timings.append(result[1])` accumulation of lines 199-203, and the
`normal_timings` accumulation of lines 237-239). -/
def okTimings (outs : List Outcome) : List ℚ :=
  outs.filterMap fun o =>
    match o with
    | .OK e _ _ => some e
    | _ => none

/-- `establish_baseline` (lines 193-214) on the outcomes of its 5 attempts.
The `stdev` argument stands for the value `statistics.stdev(timings)` computes;
theorems about the success path constrain it by `IsSampleStdev`. -/
def establish_baseline (outs : List Outcome) (stdev : ℚ) : Option Baseline :=
  let timings := okTimings outs
  if timings.length < 3 then none
  else some { mean := listMean timings, stdev := stdev, timings := timings }

/-! ## The differential classifier -/

/-- One classifier round: the outcomes of the 3 attack attempts and of the 3
interleaved normal attempts (lines 226-241 / 283-298). -/
structure ClassRound where
  attacks : List Outcome
  normals : List Outcome
  deriving DecidableEq, Repr

/-- The `attack_timings` list accumulated in lines 229-233: a `TIMEOUT`
contributes the timeout parameter itself, an `OK` contributes its elapsed
time, `REFUSED`/`ERROR` contribute nothing. -/
def attackTimings (timeout : ℚ) (attacks : List Outcome) : List ℚ :=
  attacks.filterMap fun o =>
    match o with
    | .TIMEOUT _ => some timeout
    | .OK e _ _ => some e
    | _ => none

/-- Is the outcome a `TIMEOUT`? -/
def isTimeoutOutcome : Outcome → Bool
  | .TIMEOUT _ => true
  | _ => false

/-- The `timeout_count` accumulated in lines 229-231. -/
def timeoutCount (attacks : List Outcome) : Nat :=
  (attacks.filter isTimeoutOutcome).length

/-- The `normal_mean` of line 248 / 305:
`statistics.mean(normal_timings) if normal_timings else baseline["mean"]`. -/
def normalMean (normals : List Outcome) (b : Baseline) : ℚ :=
  if okTimings normals = [] then b.mean else listMean (okTimings normals)

/-- A classifier verdict, the dict returned at lines 254-258 / 264-268
(and 311-315 / 321-325).  The `details` evidence string is presentational
and omitted. -/
structure Verdict where
  vulnerable : Bool
  confidence : String
  deriving DecidableEq, Repr

/-- The shared decision logic of `test_clte_vulnerability` (lines 216-271) and
`test_tecl_vulnerability` (lines 273-328); the two Python functions differ only
in which probe payload they send (reflected here in the attack outcomes) and in
their log strings.  Lines 243-271: fewer than 2 usable attack outcomes →
inconclusive (`None`); at least 2 timeouts → HIGH; both timing thresholds
exceeded → MEDIUM; else `None`. -/
def classifyRound (timeout : ℚ) (baseline : Baseline) (r : ClassRound) : Option Verdict :=
  let attack_timings := attackTimings timeout r.attacks
  if attack_timings.length < 2 then none
  else
    let attack_mean := listMean attack_timings
    let normal_mean := normalMean r.normals baseline
    if 2 ≤ timeoutCount r.attacks then
      some { vulnerable := true, confidence := "HIGH" }
    else if attack_mean > normal_mean + 2 * baseline.stdev ∧ attack_mean > normal_mean * 2 then
      some { vulnerable := true, confidence := "MEDIUM" }
    else none

/-- `test_clte_vulnerability` (lines 216-271), as a function of the outcomes of
its 3 CL.TE-probe attempts and 3 normal attempts. -/
def test_clte_vulnerability (timeout : ℚ) (baseline : Baseline) (r : ClassRound) :
    Option Verdict :=
  classifyRound timeout baseline r

/-- `test_tecl_vulnerability` (lines 273-328), as a function of the outcomes of
its 3 TE.CL-probe attempts and 3 normal attempts. -/
def test_tecl_vulnerability (timeout : ℚ) (baseline : Baseline) (r : ClassRound) :
    Option Verdict :=
  classifyRound timeout baseline r

/-! ## The scan orchestrator -/

/-- The verdict-carrying fields of the `results` dict of `scan_target`
(lines 343-352): `vulnerable`, `vuln_type`, `confidence`.  The `url`, `host`,
`port` and `endpoint` fields echo the parsed target (modelled separately by
`scanTargetParse`) and `details` is presentational. -/
structure ScanResult where
  vulnerable : Bool
  vulnType : Option String
  confidence : Option String
  deriving DecidableEq, Repr

/-- What `scan_target` does once a baseline exists (lines 362-402), given the
outcomes of the CL.TE and TE.CL rounds: the final result fields paired with
the exploit artifacts written, in order.  The tag `"CLTE"` stands for the
`CLTE_EXPLOIT_<host>_<timestamp>.txt` file written at lines 371-375, `"TECL"`
for the `TECL_EXPLOIT_<host>_<timestamp>.txt` file written at lines 393-397. -/
def scanWithBaseline (timeout : ℚ) (b : Baseline) (clte tecl : ClassRound) :
    ScanResult × List String :=
  let r0 : ScanResult := { vulnerable := false, vulnType := none, confidence := none }
  let step1 : ScanResult × List String :=
    match test_clte_vulnerability timeout b clte with
    | some v =>
      if v.vulnerable then
        ({ vulnerable := true, vulnType := some "CL.TE", confidence := some v.confidence },
          ["CLTE"])
      else (r0, [])
    | none => (r0, [])
  match test_tecl_vulnerability timeout b tecl with
  | some v =>
    if v.vulnerable then
      (if step1.1.vulnerable = false then
        { vulnerable := true, vulnType := some "TE.CL", confidence := some v.confidence }
      else { step1.1 with vulnType := some "CL.TE+TE.CL" },
        step1.2 ++ ["TECL"])
    else step1
  | none => step1

/-- The network behaviour a single `scan_target` call observes: the outcomes
of the 5 baseline attempts, then of the CL.TE round, then of the TE.CL
round. -/
structure NetTrace where
  baselineOuts : List Outcome
  clteRound : ClassRound
  teclRound : ClassRound
  deriving DecidableEq, Repr

/-- Everything observable of one `scan_target` call past target parsing:
the result fields, the exploit files written, and whether control ever
reached the probe classifiers. -/
structure ScanOutput where
  result : ScanResult
  written : List String
  classified : Bool
  deriving DecidableEq, Repr

/-- `scan_target` after target parsing (lines 356-402): establish the
baseline; when that fails, return the all-default result at once
(lines 358-360) without classifying or writing anything; otherwise run both
classifiers and persist an exploit per vulnerable class. -/
def scan_target (timeout stdev : ℚ) (t : NetTrace) : ScanOutput :=
  match establish_baseline t.baselineOuts stdev with
  | none =>
    { result := { vulnerable := false, vulnType := none, confidence := none },
      written := [], classified := false }
  | some b =>
    let s := scanWithBaseline timeout b t.clteRound t.teclRound
    { result := s.1, written := s.2, classified := true }

/-! ## String lengths and Python `hex` -/

/-- Python `len` on a `str`: the number of code points. -/
def pyLen (s : String) : Nat := s.data.length

/-- UTF-8 encoded size of one code point, as `str.encode("utf-8")` produces. -/
def charUtf8Size (c : Char) : Nat :=
  if c.toNat < 128 then 1
  else if c.toNat < 2048 then 2
  else if c.toNat < 65536 then 3
  else 4

/-- Byte length of the UTF-8 encoding of a string: the length of the byte
sequence actually sent over the socket (`HTTPConnection.send` encodes with
`data.encode("utf-8")`, line 58) and written to the exploit artifact file. -/
def utf8Len (s : String) : Nat := (s.data.map charUtf8Size).sum

/-- Does the string consist of ASCII characters only?  (For ASCII strings the
Python `len`, which counts code points, agrees with the UTF-8 byte length.) -/
def asciiOnly (s : String) : Bool := s.data.all (fun c => c.toNat < 128)

/-- One lowercase hexadecimal digit, as Python `hex` renders it. -/
def hexDigitChar : Nat → Char
  | 0 => '0' | 1 => '1' | 2 => '2' | 3 => '3' | 4 => '4' | 5 => '5' | 6 => '6' | 7 => '7'
  | 8 => '8' | 9 => '9' | 10 => 'a' | 11 => 'b' | 12 => 'c' | 13 => 'd' | 14 => 'e'
  | 15 => 'f' | _ => '*'

/-- Base-16 digits of `n`, most significant first, with explicit fuel
(`fuel > n` suffices since the argument quarters at least every step). -/
def hexDigitsAux : Nat → Nat → List Char
  | 0, _ => []
  | fuel + 1, n =>
    if n < 16 then [hexDigitChar n]
    else hexDigitsAux fuel (n / 16) ++ [hexDigitChar (n % 16)]

/-- Python `hex(n)[2:]` for `n ≥ 0`: lowercase hexadecimal digits without the
`0x` marker (smuggler.py lines 158 and 178). -/
def pyHex (n : Nat) : String := ⟨hexDigitsAux (n + 1) n⟩

/-- Numeric value of one lowercase hex digit. -/
def hexDigitVal (c : Char) : Nat :=
  if 97 ≤ c.toNat then c.toNat - 87 else c.toNat - 48

/-- Numeric value of a hex-digit string: the number an HTTP chunked-body
parser reads from a chunk-size line. -/
def hexVal (s : String) : Nat := s.data.foldl (fun a c => 16 * a + hexDigitVal c) 0

/-! ## The exploit payload builders -/

/-- The smuggled inner request of `build_clte_exploit` (lines 152-156). -/
def clteSmuggled (host sm sp : String) : String :=
  sm ++ " " ++ sp ++ " HTTP/1.1\r\n"
    ++ "Host: " ++ host ++ "\r\n"
    ++ "Content-Length: 10\r\n"
    ++ "\r\n"
    ++ "x="

/-- The `chunk_data` of `build_clte_exploit` (lines 158-159): a single chunk
whose size line is `hex(len(smuggled))[2:]`, holding the smuggled request,
followed by the zero-length terminating chunk. -/
def clteChunkData (host sm sp : String) : String :=
  pyHex (pyLen (clteSmuggled host sm sp)) ++ "\r\n"
    ++ clteSmuggled host sm sp ++ "\r\n0\r\n\r\n"

/-- The value of the outer `Content-Length` header of the CL.TE exploit
(line 164): `len(chunk_data)`. -/
def clteOuterContentLength (host sm sp : String) : Nat :=
  pyLen (clteChunkData host sm sp)

/-- `build_clte_exploit` (lines 151-169). -/
def build_clte_exploit (host endpoint sm sp : String) : String :=
  "POST " ++ endpoint ++ " HTTP/1.1\r\n"
    ++ "Host: " ++ host ++ "\r\n"
    ++ "User-Agent: Mozilla/5.0\r\n"
    ++ "Content-Length: " ++ toString (clteOuterContentLength host sm sp) ++ "\r\n"
    ++ "Transfer-Encoding: chunked\r\n"
    ++ "\r\n"
    ++ clteChunkData host sm sp

/-- The smuggled inner request of `build_tecl_exploit` (lines 172-176): note it
differs from the CL.TE one (no `Host` header, a `Content-Type` header,
`Content-Length: 15`, body `x=1`). -/
def teclSmuggled (sm sp : String) : String :=
  sm ++ " " ++ sp ++ " HTTP/1.1\r\n"
    ++ "Content-Type: application/x-www-form-urlencoded\r\n"
    ++ "Content-Length: 15\r\n"
    ++ "\r\n"
    ++ "x=1"

/-- The chunked payload following the blank line of the TE.CL exploit
(lines 186-189). -/
def teclChunkedPayload (sm sp : String) : String :=
  pyHex (pyLen (teclSmuggled sm sp)) ++ "\r\n"
    ++ teclSmuggled sm sp
    ++ "\r\n0\r\n"
    ++ "\r\n"

/-- The hard-coded outer `Content-Length` value of the TE.CL exploit
(line 183). -/
def teclOuterContentLength : Nat := 4

/-- `build_tecl_exploit` (lines 171-191). -/
def build_tecl_exploit (host endpoint sm sp : String) : String :=
  "POST " ++ endpoint ++ " HTTP/1.1\r\n"
    ++ "Host: " ++ host ++ "\r\n"
    ++ "Content-Type: application/x-www-form-urlencoded\r\n"
    ++ "Content-Length: 4\r\n"
    ++ "Transfer-Encoding: chunked\r\n"
    ++ "\r\n"
    ++ teclChunkedPayload sm sp

/-! ## Target normalization (`scan_target` lines 332-341)

The URL parsing is modelled from CPython `urllib.parse.urlsplit` (3.11+
semantics), restricted to what `scan_target` consumes and to URLs without
IPv6 bracket syntax (hypotheses of theorems about variable hosts exclude
brackets): a scheme is split off at the first `:` only when the text before
it is nonempty, starts with an ASCII letter and consists of scheme
characters; a netloc follows a leading `//` and runs to the first `/`, `?`
or `#`; fragment and query are stripped from the remainder to give the path.
-/

/-- `urllib.parse` scheme characters: letters, digits and `+-.` . -/
def isSchemeChar (c : Char) : Bool :=
  c.isAlpha || c.isDigit || c == '+' || c == '-' || c == '.'

/-- Split a character list at the first occurrence of `sep`. -/
def splitOnFirst (sep : Char) : List Char → Option (List Char × List Char)
  | [] => none
  | c :: cs =>
    if c = sep then some ([], cs)
    else
      match splitOnFirst sep cs with
      | some (a, b) => some (c :: a, b)
      | none => none

/-- The part of `l` before the first occurrence of `sep` (all of `l` when
absent): `str.partition(sep)[0]` / `str.split(sep, 1)[0]`. -/
def beforeFirst (sep : Char) (l : List Char) : List Char :=
  match splitOnFirst sep l with
  | some (a, _) => a
  | none => l

/-- `str.rpartition(sep)[2]`: the part after the last occurrence of `sep`
(all of `l` when absent). -/
def afterLast (sep : Char) (l : List Char) : List Char :=
  (l.reverse.takeWhile (fun c => c != sep)).reverse

/-- The fields of a CPython `SplitResult` that `scan_target` consumes. -/
structure UrlParts where
  scheme : List Char
  netloc : List Char
  path : List Char
  deriving DecidableEq, Repr

/-- The scheme rule of `urlsplit`: `i = url.find(":")`; the scheme is
split off when `i > 0`, the first character is an ASCII letter and all of
`url[:i]` are scheme characters; the scheme is lowercased. -/
def splitScheme (url : List Char) : List Char × List Char :=
  match splitOnFirst ':' url with
  | some (sk, rest) =>
    match sk with
    | [] => ([], url)
    | c :: _ =>
      if c.isAlpha && sk.all isSchemeChar then (sk.map Char.toLower, rest)
      else ([], url)
  | none => ([], url)

/-- Is the character not a netloc delimiter (`/`, `?`, `#`)? -/
def notNetlocDelim (c : Char) : Bool := !(c == '/' || c == '?' || c == '#')

/-- The netloc rule of `urlsplit`: when the remainder starts with `//`, the
netloc runs to the first `/`, `?` or `#`. -/
def splitNetloc : List Char → List Char × List Char
  | '/' :: '/' :: rest => (rest.takeWhile notNetlocDelim, rest.dropWhile notNetlocDelim)
  | l => ([], l)

/-- The scheme/netloc/path split of `urlsplit` (fragment and query are
stripped from the path and otherwise unused by `scan_target`). -/
def urlsplitM (url : List Char) : UrlParts :=
  let sr := splitScheme url
  let nr := splitNetloc sr.2
  { scheme := sr.1, netloc := nr.1, path := beforeFirst '?' (beforeFirst '#' nr.2) }

/-- `SplitResult.hostname`: the part of the netloc after the last `@` and
before the port separator `:`, lowercased; `None` when empty. -/
def urlHostname (netloc : List Char) : Option (List Char) :=
  let hi := afterLast '@' netloc
  let h := beforeFirst ':' hi
  if h = [] then none else some (h.map Char.toLower)

/-- Numeric value of a decimal digit string. -/
def digitsVal (l : List Char) : Nat := l.foldl (fun a c => 10 * a + (c.toNat - 48)) 0

/-- `SplitResult.port`: the digits after the port separator `:` of the
netloc, when present, nonempty, numeric and at most 65535.  (A nonempty
non-numeric or out-of-range port raises `ValueError` in CPython, which
`scan_target` does not catch; that crashing path is outside the claims and
not modelled.) -/
def urlPort (netloc : List Char) : Option Nat :=
  let hi := afterLast '@' netloc
  match splitOnFirst ':' hi with
  | some (_, p) =>
    if p ≠ [] ∧ p.all Char.isDigit = true ∧ digitsVal p ≤ 65535 then some (digitsVal p)
    else none
  | none => none

/-- The normalized target derived in `scan_target` lines 332-341: `host`,
`port` (with scheme-based default, and Python falsiness turning a literal
port 0 into the default), `endpoint` (defaulting to `/`), `use_ssl`. -/
structure Target where
  scheme : List Char
  host : Option (List Char)
  port : Nat
  endpoint : List Char
  useSsl : Bool
  deriving DecidableEq, Repr

/-- Target normalization of `scan_target` (lines 332-341): parse the URL; if
no scheme was recognized, prepend `https://` and reparse; then extract
hostname, port with defaults `443`/`80` by scheme, path with default `/`,
and the TLS flag. -/
def scanTargetParseL (url : List Char) : Target :=
  let p := urlsplitM url
  let p2 := if p.scheme = [] then urlsplitM ("https://".data ++ url) else p
  let dflt := if p2.scheme = "https".data then 443 else 80
  let port :=
    match urlPort p2.netloc with
    | some n => if n = 0 then dflt else n
    | none => dflt
  { scheme := p2.scheme
    host := urlHostname p2.netloc
    port := port
    endpoint := if p2.path = [] then "/".data else p2.path
    useSsl := p2.scheme = "https".data }

/-- `scanTargetParseL` on the characters of a string. -/
def scanTargetParse (url : String) : Target := scanTargetParseL url.data

/-! ## Helper lemmas: classifier -/

/-- Every `TIMEOUT` attempt contributes an entry to `attack_timings`, so the
timeout count never exceeds the number of usable timings. -/
theorem timeoutCount_le (timeout : ℚ) (l : List Outcome) :
    timeoutCount l ≤ (attackTimings timeout l).length := by
  induction l with
  | nil => exact Nat.le_refl 0
  | cons o rest ih =>
    cases o <;>
      simp [timeoutCount, attackTimings, isTimeoutOutcome, List.filter_cons,
        List.filterMap_cons] at ih ⊢ <;>
      omega

/-- With fewer than 2 usable attack outcomes the classifier is inconclusive. -/
theorem classifyRound_eq_none (timeout : ℚ) (b : Baseline) (r : ClassRound)
    (h : (attackTimings timeout r.attacks).length < 2) :
    classifyRound timeout b r = none := by
  simp only [classifyRound]
  rw [if_pos h]

/-! ## Helper lemmas: strings, ASCII and hex -/

theorem string_data_append (a b : String) : (a ++ b).data = a.data ++ b.data := by
  cases a; cases b; rfl

theorem string_append_assoc (a b c : String) : a ++ b ++ c = a ++ (b ++ c) := by
  cases a; cases b; cases c
  show String.mk _ = String.mk _
  rw [List.append_assoc]

theorem utf8Len_append (a b : String) : utf8Len (a ++ b) = utf8Len a + utf8Len b := by
  simp [utf8Len, string_data_append]

theorem pyLen_append (a b : String) : pyLen (a ++ b) = pyLen a + pyLen b := by
  simp [pyLen, string_data_append]

theorem asciiOnly_append (a b : String) :
    asciiOnly (a ++ b) = (asciiOnly a && asciiOnly b) := by
  simp [asciiOnly, string_data_append]

theorem charUtf8Size_of_ascii (c : Char) (h : c.toNat < 128) : charUtf8Size c = 1 := by
  simp [charUtf8Size, h]

/-- On ASCII strings, the UTF-8 byte length equals the code-point count
(Python `len`). -/
theorem utf8Len_eq_pyLen (s : String) (h : asciiOnly s = true) : utf8Len s = pyLen s := by
  rcases s with ⟨l⟩
  simp only [asciiOnly, List.all_eq_true, decide_eq_true_eq] at h
  show (l.map charUtf8Size).sum = l.length
  induction l with
  | nil => rfl
  | cons c t ih =>
    simp only [List.map_cons, List.sum_cons, List.length_cons,
      charUtf8Size_of_ascii c (h c (by simp))]
    rw [ih (fun d hd => h d (by simp [hd]))]
    omega

theorem hexDigitVal_hexDigitChar (n : Nat) (h : n < 16) :
    hexDigitVal (hexDigitChar n) = n := by
  interval_cases n <;> decide

theorem hexDigitChar_ascii (n : Nat) : (hexDigitChar n).toNat < 128 := by
  unfold hexDigitChar
  split <;> decide

theorem hexVal_hexDigitsAux (fuel : Nat) :
    ∀ n : Nat, n < fuel →
      List.foldl (fun a c => 16 * a + hexDigitVal c) 0 (hexDigitsAux fuel n) = n := by
  induction fuel with
  | zero => intro n h; omega
  | succ f ih =>
    intro n h
    by_cases h16 : n < 16
    · simp [hexDigitsAux, h16, hexDigitVal_hexDigitChar n h16]
    · have hpos : 0 < n := by omega
      have hdiv : n / 16 < f := by
        have h1 : n / 16 < n := Nat.div_lt_self hpos (by omega)
        omega
      simp only [hexDigitsAux, if_neg h16]
      rw [List.foldl_append]
      rw [ih _ hdiv]
      simp [hexDigitVal_hexDigitChar (n % 16) (Nat.mod_lt n (by omega))]
      omega

/-- Reading the hex chunk-size line back as a number gives the original
length: `int(hex(n)[2:], 16) = n`. -/
theorem hexVal_pyHex (n : Nat) : hexVal (pyHex n) = n :=
  hexVal_hexDigitsAux (n + 1) n (Nat.lt_succ_self n)

theorem hexDigitsAux_ascii (fuel : Nat) :
    ∀ n : Nat, ∀ c ∈ hexDigitsAux fuel n, c.toNat < 128 := by
  induction fuel with
  | zero => intro n c h; simp [hexDigitsAux] at h
  | succ f ih =>
    intro n c h
    by_cases h16 : n < 16 <;>
      simp only [hexDigitsAux, if_pos, if_neg, h16, if_true, if_false] at h
    · simp at h
      subst h
      exact hexDigitChar_ascii n
    · rw [List.mem_append] at h
      rcases h with h | h
      · exact ih _ c h
      · simp at h
        subst h
        exact hexDigitChar_ascii (n % 16)

theorem asciiOnly_pyHex (n : Nat) : asciiOnly (pyHex n) = true := by
  simp only [asciiOnly, pyHex, List.all_eq_true, decide_eq_true_eq]
  exact fun c hc => hexDigitsAux_ascii (n + 1) n c hc

/-- The examples Python produces: `hex(255)[2:] = "ff"`, `hex(0)[2:] = "0"`,
`hex(61)[2:] = "3d"`. -/
theorem pyHex_examples : pyHex 255 = "ff" ∧ pyHex 0 = "0" ∧ pyHex 61 = "3d" := by
  refine ⟨by decide, by decide, by decide⟩

theorem asciiOnly_clteSmuggled (host sm sp : String)
    (hh : asciiOnly host = true) (hm : asciiOnly sm = true) (hp : asciiOnly sp = true) :
    asciiOnly (clteSmuggled host sm sp) = true := by
  have a1 : asciiOnly " " = true := by decide
  have a2 : asciiOnly " HTTP/1.1\r\n" = true := by decide
  have a3 : asciiOnly "Host: " = true := by decide
  have a4 : asciiOnly "\r\n" = true := by decide
  have a5 : asciiOnly "Content-Length: 10\r\n" = true := by decide
  have a6 : asciiOnly "x=" = true := by decide
  simp [clteSmuggled, asciiOnly_append, hh, hm, hp, a1, a2, a3, a4, a5, a6]

theorem asciiOnly_clteChunkData (host sm sp : String)
    (hh : asciiOnly host = true) (hm : asciiOnly sm = true) (hp : asciiOnly sp = true) :
    asciiOnly (clteChunkData host sm sp) = true := by
  have a1 : asciiOnly "\r\n" = true := by decide
  have a2 : asciiOnly "\r\n0\r\n\r\n" = true := by decide
  simp [clteChunkData, asciiOnly_append, asciiOnly_clteSmuggled host sm sp hh hm hp,
    asciiOnly_pyHex, a1, a2]

/-! ## Helper lemmas: URL parsing -/

theorem splitOnFirst_append (sep : Char) (l1 l2 : List Char) (h : sep ∉ l1) :
    splitOnFirst sep (l1 ++ sep :: l2) = some (l1, l2) := by
  induction l1 with
  | nil => simp [splitOnFirst]
  | cons c cs ih =>
    have h1 : ¬ (c = sep) := fun e => h (e ▸ List.mem_cons_self c cs)
    have h2 : sep ∉ cs := fun m => h (List.mem_cons_of_mem c m)
    simp only [List.cons_append, splitOnFirst, List.append_eq]
    rw [if_neg h1, ih h2]

theorem takeWhile_all_true (p : Char → Bool) (l : List Char) (h : ∀ c ∈ l, p c = true) :
    l.takeWhile p = l ∧ l.dropWhile p = [] := by
  induction l with
  | nil => exact ⟨rfl, rfl⟩
  | cons c cs ih =>
    have hc : p c = true := h c (List.mem_cons_self c cs)
    have ihr := ih (fun d hd => h d (List.mem_cons_of_mem c hd))
    simp [List.takeWhile_cons, List.dropWhile_cons, hc, ihr.1, ihr.2]

theorem afterLast_not_mem (sep : Char) (l : List Char) (h : sep ∉ l) :
    afterLast sep l = l := by
  unfold afterLast
  have hall : l.reverse.takeWhile (fun c => c != sep) = l.reverse := by
    refine (takeWhile_all_true _ _ ?_).1
    intro c hc
    have hcl : c ∈ l := List.mem_reverse.mp hc
    simp only [bne_iff_ne, ne_eq, decide_eq_true_eq]
    exact fun e => h (e ▸ hcl)
  rw [hall, List.reverse_reverse]

theorem map_fixed_id (f : Char → Char) (l : List Char) (h : ∀ c ∈ l, f c = c) :
    l.map f = l := by
  induction l with
  | nil => rfl
  | cons c cs ih =>
    simp [h c (List.mem_cons_self c cs), ih (fun d hd => h d (List.mem_cons_of_mem c hd))]

/-- How `scan_target` normalizes scheme-less `host:port` targets whose host
cannot be mistaken for a URL scheme (first character not an ASCII letter,
e.g. an IPv4 address): the first parse recognizes no scheme, `https://` is
prepended, and the reparse yields scheme `https`, the given host and the
given (nonzero, in-range) port. -/
theorem scanTargetParseL_hostport (c : Char) (t ps : List Char)
    (hca : c.isAlpha = false)
    (hhost : ∀ d ∈ c :: t, d ≠ ':' ∧ d ≠ '@' ∧ d ≠ '/' ∧ d ≠ '?' ∧ d ≠ '#' ∧
      d ≠ '[' ∧ d ≠ ']' ∧ d.toLower = d)
    (hps : ps ≠ []) (hdig : ∀ d ∈ ps, d.isDigit = true)
    (hrange : digitsVal ps ≤ 65535) (hpos : 0 < digitsVal ps) :
    scanTargetParseL ((c :: t) ++ ':' :: ps) =
      { scheme := "https".data, host := some (c :: t), port := digitsVal ps,
        endpoint := "/".data, useSsl := true } := by
  have hcolH : ':' ∉ c :: t := fun hm => ((hhost _ hm).1 rfl)
  have hsp1 : splitOnFirst ':' ((c :: t) ++ ':' :: ps) = some (c :: t, ps) :=
    splitOnFirst_append ':' (c :: t) ps hcolH
  have hscheme1 : splitScheme ((c :: t) ++ ':' :: ps) = ([], (c :: t) ++ ':' :: ps) := by
    simp only [splitScheme, hsp1]
    simp [hca]
  have hfull : "https://".data ++ ((c :: t) ++ ':' :: ps)
      = "https".data ++ ':' :: ('/' :: '/' :: ((c :: t) ++ ':' :: ps)) := rfl
  have hcolhttps : ':' ∉ "https".data := by decide
  have hsp2 : splitOnFirst ':' ("https".data ++ ':' :: ('/' :: '/' :: ((c :: t) ++ ':' :: ps)))
      = some ("https".data, '/' :: '/' :: ((c :: t) ++ ':' :: ps)) :=
    splitOnFirst_append ':' _ _ hcolhttps
  have hscheme2 : splitScheme ("https://".data ++ ((c :: t) ++ ':' :: ps))
      = ("https".data, '/' :: '/' :: ((c :: t) ++ ':' :: ps)) := by
    rw [hfull]
    simp only [splitScheme, hsp2]
    rw [if_pos (by decide : ('h'.isAlpha
      && List.all ['h', 't', 't', 'p', 's'] isSchemeChar) = true)]
    rw [show List.map Char.toLower ['h', 't', 't', 'p', 's'] = ['h', 't', 't', 'p', 's']
      from by decide]
  have hnd : ∀ d ∈ (c :: t) ++ ':' :: ps, notNetlocDelim d = true := by
    intro d hd
    rcases List.mem_append.mp hd with hmem | hmem
    · obtain ⟨-, -, h3, h4, h5, -⟩ := hhost d hmem
      simp [notNetlocDelim, h3, h4, h5]
    · rcases List.mem_cons.mp hmem with he | hmem2
      · subst he; decide
      · have hdd := hdig d hmem2
        rcases eq_or_ne d '/' with he | h3
        · exact absurd (he ▸ hdd) (by decide)
        rcases eq_or_ne d '?' with he | h4
        · exact absurd (he ▸ hdd) (by decide)
        rcases eq_or_ne d '#' with he | h5
        · exact absurd (he ▸ hdd) (by decide)
        simp [notNetlocDelim, h3, h4, h5]
  have htw := takeWhile_all_true notNetlocDelim ((c :: t) ++ ':' :: ps) hnd
  have hnet : splitNetloc ('/' :: '/' :: ((c :: t) ++ ':' :: ps))
      = ((c :: t) ++ ':' :: ps, []) := by
    simp only [splitNetloc]
    rw [htw.1, htw.2]
  have hat : '@' ∉ (c :: t) ++ ':' :: ps := by
    intro hm
    rcases List.mem_append.mp hm with hmem | hmem
    · exact ((hhost _ hmem).2.1) rfl
    · rcases List.mem_cons.mp hmem with he | hmem2
      · exact absurd he (by decide)
      · exact absurd (hdig _ hmem2) (by decide)
  have hafter : afterLast '@' ((c :: t) ++ ':' :: ps) = (c :: t) ++ ':' :: ps :=
    afterLast_not_mem '@' _ hat
  have hhostname : urlHostname ((c :: t) ++ ':' :: ps) = some (c :: t) := by
    simp only [urlHostname, hafter, beforeFirst, hsp1]
    rw [if_neg (by simp)]
    rw [map_fixed_id _ _ (fun d hd => (hhost d hd).2.2.2.2.2.2.2)]
  have hport : urlPort ((c :: t) ++ ':' :: ps) = some (digitsVal ps) := by
    simp only [urlPort, hafter, hsp1]
    rw [if_pos ⟨hps, List.all_eq_true.mpr (fun d hd => by simpa using hdig d hd), hrange⟩]
  have hne0 : ¬ (digitsVal ps = 0) := by omega
  simp only [scanTargetParseL, urlsplitM, hscheme1, hscheme2]
  simp only [if_true]
  simp only [hnet, hhostname, hport]
  simp [beforeFirst, splitOnFirst, hne0]

/-! ## The claims -/

/-- C1: for every probe class (CL.TE or TE.CL), if at least 2 of the 3 probe
attempts produce a `TIMEOUT` outcome, the classifier returns a vulnerable
verdict with confidence `HIGH`. -/
theorem timeout_majority_yields_high (timeout : ℚ) (b : Baseline) (r : ClassRound)
    (hlen : r.attacks.length = 3) (hto : 2 ≤ timeoutCount r.attacks) :
    test_clte_vulnerability timeout b r = some { vulnerable := true, confidence := "HIGH" } ∧
    test_tecl_vulnerability timeout b r = some { vulnerable := true, confidence := "HIGH" } := by
  clear hlen
  have h2 : ¬ (attackTimings timeout r.attacks).length < 2 :=
    Nat.not_lt.mpr (le_trans hto (timeoutCount_le timeout r.attacks))
  constructor <;>
  · simp only [test_clte_vulnerability, test_tecl_vulnerability, classifyRound]
    rw [if_neg h2, if_pos hto]

/-- Witness for C1: three timeouts against a quiet baseline give HIGH. -/
theorem timeout_majority_yields_high_witness :
    ([Outcome.TIMEOUT 10, Outcome.TIMEOUT 10, Outcome.TIMEOUT 10] : List Outcome).length = 3 ∧
    2 ≤ timeoutCount [Outcome.TIMEOUT 10, Outcome.TIMEOUT 10, Outcome.TIMEOUT 10] ∧
    (test_clte_vulnerability 10 ⟨1, 0, [1, 1, 1]⟩
        ⟨[Outcome.TIMEOUT 10, Outcome.TIMEOUT 10, Outcome.TIMEOUT 10],
          [Outcome.OK 1 "" 0, Outcome.OK 1 "" 0, Outcome.OK 1 "" 0]⟩
      = some { vulnerable := true, confidence := "HIGH" } ∧
    test_tecl_vulnerability 10 ⟨1, 0, [1, 1, 1]⟩
        ⟨[Outcome.TIMEOUT 10, Outcome.TIMEOUT 10, Outcome.TIMEOUT 10],
          [Outcome.OK 1 "" 0, Outcome.OK 1 "" 0, Outcome.OK 1 "" 0]⟩
      = some { vulnerable := true, confidence := "HIGH" }) :=
  ⟨by decide, by decide,
    timeout_majority_yields_high 10 ⟨1, 0, [1, 1, 1]⟩
      ⟨[Outcome.TIMEOUT 10, Outcome.TIMEOUT 10, Outcome.TIMEOUT 10],
        [Outcome.OK 1 "" 0, Outcome.OK 1 "" 0, Outcome.OK 1 "" 0]⟩
      (by decide) (by decide)⟩

/-- C2 counterexample: a round with 2 timeouts and one fast response against a
noisy baseline (timings `[3, 5, 7]`, whose sample standard deviation is
exactly 2) has mean probe latency 7, below the threshold
`normal_mean + 2·stdev = 5 + 4 = 9`, yet the classifier still returns a
vulnerable HIGH verdict for both classes: the timeout rule has priority, so
a below-threshold mean does not force "not vulnerable". -/
theorem below_threshold_still_vulnerable_cex :
    IsSampleStdev [3, 5, 7] 2 ∧
    listMean (attackTimings 10 [Outcome.TIMEOUT 10, Outcome.TIMEOUT 10, Outcome.OK 1 "" 0])
      < normalMean [Outcome.OK 5 "" 0, Outcome.OK 5 "" 0, Outcome.OK 5 "" 0] ⟨5, 2, [3, 5, 7]⟩
        + 2 * (2 : ℚ) ∧
    test_clte_vulnerability 10 ⟨5, 2, [3, 5, 7]⟩
        ⟨[Outcome.TIMEOUT 10, Outcome.TIMEOUT 10, Outcome.OK 1 "" 0],
          [Outcome.OK 5 "" 0, Outcome.OK 5 "" 0, Outcome.OK 5 "" 0]⟩
      = some { vulnerable := true, confidence := "HIGH" } ∧
    test_tecl_vulnerability 10 ⟨5, 2, [3, 5, 7]⟩
        ⟨[Outcome.TIMEOUT 10, Outcome.TIMEOUT 10, Outcome.OK 1 "" 0],
          [Outcome.OK 5 "" 0, Outcome.OK 5 "" 0, Outcome.OK 5 "" 0]⟩
      = some { vulnerable := true, confidence := "HIGH" } := by
  refine ⟨⟨by norm_num, by with_unfolding_all decide⟩, by with_unfolding_all decide,
    by with_unfolding_all decide, by with_unfolding_all decide⟩

/-- C2 amended: for every probe class, whenever the mean probe latency is
below `normal_mean + 2·stdev` AND fewer than 2 of the probe attempts timed
out, the classifier returns no vulnerable verdict.  (When at least 2 attempts
time out, the HIGH timeout rule takes priority regardless of the mean.) -/
theorem below_threshold_few_timeouts_not_vulnerable (timeout : ℚ) (b : Baseline)
    (r : ClassRound) (hto : timeoutCount r.attacks < 2)
    (hlt : listMean (attackTimings timeout r.attacks)
      < normalMean r.normals b + 2 * b.stdev) :
    test_clte_vulnerability timeout b r = none ∧
    test_tecl_vulnerability timeout b r = none := by
  have key : classifyRound timeout b r = none := by
    simp only [classifyRound]
    by_cases h2 : (attackTimings timeout r.attacks).length < 2
    · rw [if_pos h2]
    · rw [if_neg h2, if_neg (by omega : ¬ 2 ≤ timeoutCount r.attacks), if_neg ?_]
      rintro ⟨hgt, -⟩
      exact absurd hgt (not_lt.mpr hlt.le)
  exact ⟨key, key⟩

/-- Witness for the amended C2: fast probes against a slower normal mean. -/
theorem below_threshold_few_timeouts_not_vulnerable_witness :
    timeoutCount [Outcome.OK 1 "" 0, Outcome.OK 1 "" 0, Outcome.OK 1 "" 0] < 2 ∧
    listMean (attackTimings 10 [Outcome.OK 1 "" 0, Outcome.OK 1 "" 0, Outcome.OK 1 "" 0])
      < normalMean [Outcome.OK 5 "" 0, Outcome.OK 5 "" 0, Outcome.OK 5 "" 0] ⟨5, 0, [5, 5, 5]⟩
        + 2 * (⟨5, 0, [5, 5, 5]⟩ : Baseline).stdev ∧
    (test_clte_vulnerability 10 ⟨5, 0, [5, 5, 5]⟩
        ⟨[Outcome.OK 1 "" 0, Outcome.OK 1 "" 0, Outcome.OK 1 "" 0],
          [Outcome.OK 5 "" 0, Outcome.OK 5 "" 0, Outcome.OK 5 "" 0]⟩ = none ∧
    test_tecl_vulnerability 10 ⟨5, 0, [5, 5, 5]⟩
        ⟨[Outcome.OK 1 "" 0, Outcome.OK 1 "" 0, Outcome.OK 1 "" 0],
          [Outcome.OK 5 "" 0, Outcome.OK 5 "" 0, Outcome.OK 5 "" 0]⟩ = none) :=
  ⟨by decide, by with_unfolding_all decide,
    below_threshold_few_timeouts_not_vulnerable 10 ⟨5, 0, [5, 5, 5]⟩
      ⟨[Outcome.OK 1 "" 0, Outcome.OK 1 "" 0, Outcome.OK 1 "" 0],
        [Outcome.OK 5 "" 0, Outcome.OK 5 "" 0, Outcome.OK 5 "" 0]⟩
      (by decide) (by with_unfolding_all decide)⟩

/-- C3 counterexample: for host `example.com`, smuggled method `GET`, smuggled
path `/admin` (the spec's own round-trip instance, all ASCII), the outer
`Content-Length` value `len(chunk_data)` of the CL.TE exploit EQUALS the byte
length of the chunked body that follows the blank line — it is not
inconsistent with it. -/
theorem clte_content_length_consistent_cex :
    clteOuterContentLength "example.com" "GET" "/admin"
      = utf8Len (clteChunkData "example.com" "GET" "/admin") := by decide

/-- C3 amended: for every host, smuggled method and smuggled path (ASCII, as
HTTP request components are), the CL.TE exploit's outer `Content-Length`
value exactly equals the byte length of the chunked body that follows the
blank line; the framing conflict of the payload comes from declaring
`Transfer-Encoding: chunked` alongside `Content-Length`, not from a numeric
mismatch between the `Content-Length` and the body. -/
theorem clte_outer_content_length_matches_body (host endpoint sm sp : String)
    (hh : asciiOnly host = true) (hm : asciiOnly sm = true) (hp : asciiOnly sp = true) :
    clteOuterContentLength host sm sp = utf8Len (clteChunkData host sm sp) ∧
    ∃ s : String, build_clte_exploit host endpoint sm sp = s ++ clteChunkData host sm sp := by
  constructor
  · rw [utf8Len_eq_pyLen _ (asciiOnly_clteChunkData host sm sp hh hm hp)]
    rfl
  · exact ⟨_, rfl⟩

/-- Witness for the amended C3 at the spec's round-trip instance. -/
theorem clte_outer_content_length_matches_body_witness :
    asciiOnly "example.com" = true ∧ asciiOnly "GET" = true ∧ asciiOnly "/admin" = true ∧
    (clteOuterContentLength "example.com" "GET" "/admin"
        = utf8Len (clteChunkData "example.com" "GET" "/admin") ∧
      ∃ s : String, build_clte_exploit "example.com" "/login" "GET" "/admin"
        = s ++ clteChunkData "example.com" "GET" "/admin") :=
  ⟨by decide, by decide, by decide,
    clte_outer_content_length_matches_body "example.com" "/login" "GET" "/admin"
      (by decide) (by decide) (by decide)⟩

/-- C4: for every host, endpoint, smuggled method and smuggled path (ASCII),
the CL.TE exploit's declared chunk size — the hex number `hex(len(smuggled))`
opening the chunked body — exactly equals the byte length of the embedded
smuggled request, and the payload terminates with the zero-length chunk
`0\r\n\r\n`. -/
theorem clte_chunk_size_is_smuggled_byte_length (host endpoint sm sp : String)
    (hh : asciiOnly host = true) (hm : asciiOnly sm = true) (hp : asciiOnly sp = true) :
    hexVal (pyHex (pyLen (clteSmuggled host sm sp))) = utf8Len (clteSmuggled host sm sp) ∧
    ∃ s : String, build_clte_exploit host endpoint sm sp = s ++ "0\r\n\r\n" := by
  constructor
  · rw [hexVal_pyHex, utf8Len_eq_pyLen _ (asciiOnly_clteSmuggled host sm sp hh hm hp)]
  · refine ⟨"POST " ++ endpoint ++ " HTTP/1.1\r\n"
      ++ "Host: " ++ host ++ "\r\n"
      ++ "User-Agent: Mozilla/5.0\r\n"
      ++ "Content-Length: " ++ toString (clteOuterContentLength host sm sp) ++ "\r\n"
      ++ "Transfer-Encoding: chunked\r\n"
      ++ "\r\n"
      ++ (pyHex (pyLen (clteSmuggled host sm sp)) ++ "\r\n"
        ++ clteSmuggled host sm sp ++ "\r\n"), ?_⟩
    have hsplit : ("\r\n0\r\n\r\n" : String) = "\r\n" ++ "0\r\n\r\n" := by decide
    simp only [build_clte_exploit, clteChunkData, hsplit, string_append_assoc]

/-- Witness for C4 at host `example.com`, endpoint `/login`, smuggled method
`GET`, smuggled path `/admin`. -/
theorem clte_chunk_size_is_smuggled_byte_length_witness :
    asciiOnly "example.com" = true ∧ asciiOnly "GET" = true ∧ asciiOnly "/admin" = true ∧
    (hexVal (pyHex (pyLen (clteSmuggled "example.com" "GET" "/admin")))
        = utf8Len (clteSmuggled "example.com" "GET" "/admin") ∧
      ∃ s : String, build_clte_exploit "example.com" "/login" "GET" "/admin"
        = s ++ "0\r\n\r\n") :=
  ⟨by decide, by decide, by decide,
    clte_chunk_size_is_smuggled_byte_length "example.com" "/login" "GET" "/admin"
      (by decide) (by decide) (by decide)⟩

/-- C5 counterexample: at the spec's own instance, the TE.CL exploit's
smuggled inner request differs byte for byte from the CL.TE exploit's
(`Content-Type` header and no `Host` header, `Content-Length: 15` instead of
`10`, body `x=1` instead of `x=`). -/
theorem tecl_smuggled_differs_cex :
    teclSmuggled "GET" "/admin" ≠ clteSmuggled "example.com" "GET" "/admin" := by decide

/-- C5 amended: for every host, endpoint, smuggled method and smuggled path,
the TE.CL exploit embeds a smuggled inner request that shares the request
line of the CL.TE exploit's smuggled request (but carries its own headers
and body), and the outer `Content-Length` (the literal 4) is strictly
shorter than the byte length of the chunked payload that follows the blank
line. -/
theorem tecl_exploit_structure (host endpoint sm sp : String) :
    (∃ r1 r2 : String,
      clteSmuggled host sm sp = sm ++ " " ++ sp ++ " HTTP/1.1\r\n" ++ r1 ∧
      teclSmuggled sm sp = sm ++ " " ++ sp ++ " HTTP/1.1\r\n" ++ r2) ∧
    teclOuterContentLength = 4 ∧
    teclOuterContentLength < utf8Len (teclChunkedPayload sm sp) ∧
    ∃ s : String, build_tecl_exploit host endpoint sm sp = s ++ teclChunkedPayload sm sp := by
  refine ⟨⟨"Host: " ++ host ++ "\r\n" ++ "Content-Length: 10\r\n" ++ "\r\n" ++ "x=",
      "Content-Type: application/x-www-form-urlencoded\r\n" ++ "Content-Length: 15\r\n"
        ++ "\r\n" ++ "x=1", ?_, ?_⟩, rfl, ?_, ⟨_, rfl⟩⟩
  · simp only [clteSmuggled, string_append_assoc]
  · simp only [teclSmuggled, string_append_assoc]
  · have h1 : utf8Len "\r\n" = 2 := by decide
    have h2 : utf8Len "\r\n0\r\n" = 5 := by decide
    simp only [teclChunkedPayload, utf8Len_append, h1, h2, teclOuterContentLength]
    omega

/-- C6: if fewer than 3 of the baseline attempts succeed, the baseline
estimator returns no baseline and `scan_target` returns the default result
(not vulnerable, no class, no confidence), writes no exploit artifact, and
never reaches the probe classifiers. -/
theorem baseline_insufficient_skips (timeout stdev : ℚ) (t : NetTrace)
    (h : (okTimings t.baselineOuts).length < 3) :
    establish_baseline t.baselineOuts stdev = none ∧
    scan_target timeout stdev t =
      { result := { vulnerable := false, vulnType := none, confidence := none },
        written := [], classified := false } := by
  have hb : establish_baseline t.baselineOuts stdev = none := by
    simp only [establish_baseline]
    rw [if_pos h]
  exact ⟨hb, by simp [scan_target, hb]⟩

/-- Witness for C6: all five baseline attempts refused. -/
theorem baseline_insufficient_skips_witness :
    (okTimings [Outcome.REFUSED, Outcome.REFUSED, Outcome.REFUSED, Outcome.REFUSED,
      Outcome.REFUSED]).length < 3 ∧
    (establish_baseline [Outcome.REFUSED, Outcome.REFUSED, Outcome.REFUSED, Outcome.REFUSED,
        Outcome.REFUSED] 0 = none ∧
    scan_target 10 0 ⟨[Outcome.REFUSED, Outcome.REFUSED, Outcome.REFUSED, Outcome.REFUSED,
        Outcome.REFUSED],
        ⟨[Outcome.TIMEOUT 10, Outcome.TIMEOUT 10, Outcome.TIMEOUT 10], []⟩,
        ⟨[Outcome.TIMEOUT 10, Outcome.TIMEOUT 10, Outcome.TIMEOUT 10], []⟩⟩ =
      { result := { vulnerable := false, vulnType := none, confidence := none },
        written := [], classified := false }) :=
  ⟨by decide,
    baseline_insufficient_skips 10 0
      ⟨[Outcome.REFUSED, Outcome.REFUSED, Outcome.REFUSED, Outcome.REFUSED, Outcome.REFUSED],
        ⟨[Outcome.TIMEOUT 10, Outcome.TIMEOUT 10, Outcome.TIMEOUT 10], []⟩,
        ⟨[Outcome.TIMEOUT 10, Outcome.TIMEOUT 10, Outcome.TIMEOUT 10], []⟩⟩
      (by decide)⟩

/-- C7 counterexample: the scheme-less target `example.com:8080` is NOT
normalized to scheme https with host `example.com` and port 8080 — urlparse
takes `example.com` for the scheme, leaving no hostname, port default 80 and
path `8080`. -/
theorem hostport_scheme_misparse_cex :
    scanTargetParse "example.com:8080"
      = { scheme := "example.com".data, host := none, port := 80,
          endpoint := "8080".data, useSsl := false } ∧
    (scanTargetParse "example.com:8080").scheme ≠ "https".data ∧
    (scanTargetParse "example.com:8080").host ≠ some "example.com".data ∧
    (scanTargetParse "example.com:8080").port ≠ 8080 :=
  ⟨by decide, by decide, by decide, by decide⟩

/-- C7 amended: `example.com` normalizes to scheme https, port 443, path `/`;
`http://example.com:8080/api` normalizes to scheme http, port 8080, path
`/api`; and a scheme-less `host:port` target receives the https default with
the given host and port exactly when the host cannot be mistaken for a URL
scheme — its first character is not an ASCII letter (e.g. an IPv4 address) —
while an alphabetic host such as `example.com:8080` is misparsed as a
scheme. -/
theorem target_normalization (c : Char) (t ps : List Char)
    (hca : c.isAlpha = false)
    (hhost : ∀ d ∈ c :: t, d ≠ ':' ∧ d ≠ '@' ∧ d ≠ '/' ∧ d ≠ '?' ∧ d ≠ '#' ∧
      d ≠ '[' ∧ d ≠ ']' ∧ d.toLower = d)
    (hps : ps ≠ []) (hdig : ∀ d ∈ ps, d.isDigit = true)
    (hrange : digitsVal ps ≤ 65535) (hpos : 0 < digitsVal ps) :
    scanTargetParse "example.com"
      = { scheme := "https".data, host := some "example.com".data, port := 443,
          endpoint := "/".data, useSsl := true } ∧
    scanTargetParse "http://example.com:8080/api"
      = { scheme := "http".data, host := some "example.com".data, port := 8080,
          endpoint := "/api".data, useSsl := false } ∧
    scanTargetParseL ((c :: t) ++ ':' :: ps)
      = { scheme := "https".data, host := some (c :: t), port := digitsVal ps,
          endpoint := "/".data, useSsl := true } :=
  ⟨by decide, by decide, scanTargetParseL_hostport c t ps hca hhost hps hdig hrange hpos⟩

/-- Witness for the amended C7 at the digit-initial target `127.0.0.1:8080`. -/
theorem target_normalization_witness :
    ('1' : Char).isAlpha = false ∧
    (∀ d ∈ '1' :: "27.0.0.1".data, d ≠ ':' ∧ d ≠ '@' ∧ d ≠ '/' ∧ d ≠ '?' ∧ d ≠ '#' ∧
      d ≠ '[' ∧ d ≠ ']' ∧ d.toLower = d) ∧
    "8080".data ≠ [] ∧ (∀ d ∈ "8080".data, d.isDigit = true) ∧
    digitsVal "8080".data ≤ 65535 ∧ 0 < digitsVal "8080".data ∧
    (scanTargetParse "example.com"
      = { scheme := "https".data, host := some "example.com".data, port := 443,
          endpoint := "/".data, useSsl := true } ∧
    scanTargetParse "http://example.com:8080/api"
      = { scheme := "http".data, host := some "example.com".data, port := 8080,
          endpoint := "/api".data, useSsl := false } ∧
    scanTargetParseL (('1' :: "27.0.0.1".data) ++ ':' :: "8080".data)
      = { scheme := "https".data, host := some ('1' :: "27.0.0.1".data),
          port := digitsVal "8080".data, endpoint := "/".data, useSsl := true }) :=
  ⟨by decide, by decide, by decide, by decide, by decide, by decide,
    target_normalization '1' "27.0.0.1".data "8080".data (by decide) (by decide)
      (by decide) (by decide) (by decide) (by decide)⟩

/-- C8: the baseline estimator is deterministic and matches the closed-form
statistics: samples `[1, 1, 1]` give mean 1 and standard deviation 0, and
samples `[1, 2, 3]` give mean 2 and standard deviation 1 (the standard
deviation being the nonnegative square root of the sample variance). -/
theorem baseline_closed_form_statistics :
    establish_baseline
        [Outcome.OK 1 "" 0, Outcome.OK 1 "" 0, Outcome.OK 1 "" 0, Outcome.REFUSED,
          Outcome.REFUSED] 0
      = some { mean := 1, stdev := 0, timings := [1, 1, 1] } ∧
    listMean [1, 1, 1] = 1 ∧ IsSampleStdev [1, 1, 1] 0 ∧
    establish_baseline
        [Outcome.OK 1 "" 0, Outcome.OK 2 "" 0, Outcome.OK 3 "" 0, Outcome.REFUSED,
          Outcome.REFUSED] 1
      = some { mean := 2, stdev := 1, timings := [1, 2, 3] } ∧
    listMean [1, 2, 3] = 2 ∧ IsSampleStdev [1, 2, 3] 1 :=
  ⟨by with_unfolding_all decide, by with_unfolding_all decide,
    ⟨by norm_num, by with_unfolding_all decide⟩,
    by with_unfolding_all decide, by with_unfolding_all decide,
    ⟨by norm_num, by with_unfolding_all decide⟩⟩

/-- C9: for every probe class, if fewer than 2 of the probe attempts produce a
usable outcome (`OK` or `TIMEOUT`), the classifier returns no verdict, and the
caller records no vulnerability and writes no exploit for that class. -/
theorem inconclusive_round_reports_nothing (timeout : ℚ) (b : Baseline)
    (clte tecl : ClassRound) :
    ((attackTimings timeout clte.attacks).length < 2 →
      test_clte_vulnerability timeout b clte = none ∧
      "CLTE" ∉ (scanWithBaseline timeout b clte tecl).2 ∧
      (scanWithBaseline timeout b clte tecl).1.vulnType ≠ some "CL.TE" ∧
      (scanWithBaseline timeout b clte tecl).1.vulnType ≠ some "CL.TE+TE.CL") ∧
    ((attackTimings timeout tecl.attacks).length < 2 →
      test_tecl_vulnerability timeout b tecl = none ∧
      "TECL" ∉ (scanWithBaseline timeout b clte tecl).2 ∧
      (scanWithBaseline timeout b clte tecl).1.vulnType ≠ some "TE.CL" ∧
      (scanWithBaseline timeout b clte tecl).1.vulnType ≠ some "CL.TE+TE.CL") := by
  constructor
  · intro h
    have hc : test_clte_vulnerability timeout b clte = none :=
      classifyRound_eq_none timeout b clte h
    refine ⟨hc, ?_⟩
    rcases ht : test_tecl_vulnerability timeout b tecl with _ | v
    · simp [scanWithBaseline, hc, ht]
    · by_cases hv : v.vulnerable <;> simp [scanWithBaseline, hc, ht, hv]
  · intro h
    have ht : test_tecl_vulnerability timeout b tecl = none :=
      classifyRound_eq_none timeout b tecl h
    refine ⟨ht, ?_⟩
    rcases hc : test_clte_vulnerability timeout b clte with _ | v
    · simp [scanWithBaseline, hc, ht]
    · by_cases hv : v.vulnerable <;> simp [scanWithBaseline, hc, ht, hv]

/-- Witness for C9: rounds whose probe attempts are all hard errors. -/
theorem inconclusive_round_reports_nothing_witness :
    (attackTimings 10 [Outcome.REFUSED, Outcome.ERROR "x", Outcome.REFUSED]).length < 2 ∧
    (test_clte_vulnerability 10 ⟨1, 0, [1, 1, 1]⟩
        ⟨[Outcome.REFUSED, Outcome.ERROR "x", Outcome.REFUSED], []⟩ = none ∧
      "CLTE" ∉ (scanWithBaseline 10 ⟨1, 0, [1, 1, 1]⟩
        ⟨[Outcome.REFUSED, Outcome.ERROR "x", Outcome.REFUSED], []⟩
        ⟨[Outcome.REFUSED, Outcome.ERROR "x", Outcome.REFUSED], []⟩).2 ∧
      (scanWithBaseline 10 ⟨1, 0, [1, 1, 1]⟩
        ⟨[Outcome.REFUSED, Outcome.ERROR "x", Outcome.REFUSED], []⟩
        ⟨[Outcome.REFUSED, Outcome.ERROR "x", Outcome.REFUSED], []⟩).1.vulnType ≠ some "CL.TE" ∧
      (scanWithBaseline 10 ⟨1, 0, [1, 1, 1]⟩
        ⟨[Outcome.REFUSED, Outcome.ERROR "x", Outcome.REFUSED], []⟩
        ⟨[Outcome.REFUSED, Outcome.ERROR "x", Outcome.REFUSED], []⟩).1.vulnType
          ≠ some "CL.TE+TE.CL") ∧
    (test_tecl_vulnerability 10 ⟨1, 0, [1, 1, 1]⟩
        ⟨[Outcome.REFUSED, Outcome.ERROR "x", Outcome.REFUSED], []⟩ = none ∧
      "TECL" ∉ (scanWithBaseline 10 ⟨1, 0, [1, 1, 1]⟩
        ⟨[Outcome.REFUSED, Outcome.ERROR "x", Outcome.REFUSED], []⟩
        ⟨[Outcome.REFUSED, Outcome.ERROR "x", Outcome.REFUSED], []⟩).2 ∧
      (scanWithBaseline 10 ⟨1, 0, [1, 1, 1]⟩
        ⟨[Outcome.REFUSED, Outcome.ERROR "x", Outcome.REFUSED], []⟩
        ⟨[Outcome.REFUSED, Outcome.ERROR "x", Outcome.REFUSED], []⟩).1.vulnType ≠ some "TE.CL" ∧
      (scanWithBaseline 10 ⟨1, 0, [1, 1, 1]⟩
        ⟨[Outcome.REFUSED, Outcome.ERROR "x", Outcome.REFUSED], []⟩
        ⟨[Outcome.REFUSED, Outcome.ERROR "x", Outcome.REFUSED], []⟩).1.vulnType
          ≠ some "CL.TE+TE.CL") :=
  ⟨by decide,
    (inconclusive_round_reports_nothing 10 ⟨1, 0, [1, 1, 1]⟩
      ⟨[Outcome.REFUSED, Outcome.ERROR "x", Outcome.REFUSED], []⟩
      ⟨[Outcome.REFUSED, Outcome.ERROR "x", Outcome.REFUSED], []⟩).1 (by decide),
    (inconclusive_round_reports_nothing 10 ⟨1, 0, [1, 1, 1]⟩
      ⟨[Outcome.REFUSED, Outcome.ERROR "x", Outcome.REFUSED], []⟩
      ⟨[Outcome.REFUSED, Outcome.ERROR "x", Outcome.REFUSED], []⟩).2 (by decide)⟩

/-- C10: when both classifiers return a vulnerable verdict, `scan_target`
combines the class to `CL.TE+TE.CL` but keeps the confidence of the CL.TE
verdict; the TE.CL confidence never reaches the result. -/
theorem dual_vulnerability_keeps_clte_confidence (timeout : ℚ) (b : Baseline)
    (clte tecl : ClassRound) (v1 v2 : Verdict)
    (h1 : test_clte_vulnerability timeout b clte = some v1) (hv1 : v1.vulnerable = true)
    (h2 : test_tecl_vulnerability timeout b tecl = some v2) (hv2 : v2.vulnerable = true) :
    (scanWithBaseline timeout b clte tecl).1 =
      { vulnerable := true, vulnType := some "CL.TE+TE.CL",
        confidence := some v1.confidence } := by
  simp [scanWithBaseline, h1, h2, hv1, hv2]

/-- Witness for C10: a MEDIUM CL.TE verdict followed by a HIGH TE.CL verdict
is reported with confidence MEDIUM. -/
theorem dual_vulnerability_keeps_clte_confidence_witness :
    test_clte_vulnerability 10 ⟨1, 0, [1, 1, 1]⟩
        ⟨[Outcome.OK 10 "" 0, Outcome.OK 10 "" 0, Outcome.OK 10 "" 0],
          [Outcome.OK 1 "" 0, Outcome.OK 1 "" 0, Outcome.OK 1 "" 0]⟩
      = some { vulnerable := true, confidence := "MEDIUM" } ∧
    test_tecl_vulnerability 10 ⟨1, 0, [1, 1, 1]⟩
        ⟨[Outcome.TIMEOUT 10, Outcome.TIMEOUT 10, Outcome.TIMEOUT 10], []⟩
      = some { vulnerable := true, confidence := "HIGH" } ∧
    (scanWithBaseline 10 ⟨1, 0, [1, 1, 1]⟩
        ⟨[Outcome.OK 10 "" 0, Outcome.OK 10 "" 0, Outcome.OK 10 "" 0],
          [Outcome.OK 1 "" 0, Outcome.OK 1 "" 0, Outcome.OK 1 "" 0]⟩
        ⟨[Outcome.TIMEOUT 10, Outcome.TIMEOUT 10, Outcome.TIMEOUT 10], []⟩).1 =
      { vulnerable := true, vulnType := some "CL.TE+TE.CL", confidence := some "MEDIUM" } :=
  ⟨by with_unfolding_all decide, by with_unfolding_all decide,
    dual_vulnerability_keeps_clte_confidence 10 ⟨1, 0, [1, 1, 1]⟩
      ⟨[Outcome.OK 10 "" 0, Outcome.OK 10 "" 0, Outcome.OK 10 "" 0],
        [Outcome.OK 1 "" 0, Outcome.OK 1 "" 0, Outcome.OK 1 "" 0]⟩
      ⟨[Outcome.TIMEOUT 10, Outcome.TIMEOUT 10, Outcome.TIMEOUT 10], []⟩
      ⟨true, "MEDIUM"⟩ ⟨true, "HIGH"⟩
      (by with_unfolding_all decide) rfl (by with_unfolding_all decide) rfl⟩

end Smuggler
